import Mathlib

/-!
Verification of the HTTP API gateway in `src/http_api_server.py`.

The gateway exposes two delegated commerce capabilities (`create_order`,
`get_order_status`, imported from `shopify_mcp_server` and treated here as
opaque oracles that either return a JSON-encoded string or raise, modelled
by `Except String String`) as REST endpoints, plus two static endpoints.

The embedding below models:
  * JSON values (`Json`) and Python's `json.loads` (`json_loads`);
  * the pydantic request/response models (`LineItem`, `CreateOrderRequest`,
    `GetOrderStatusRequest`, `OrderResponse`) with their structural
    validation and default values;
  * the two endpoint handlers with their try/except blocks;
  * the FastAPI routing and validation pipeline (`app`).
Numbers are modelled as rationals; the code does no arithmetic on them, so
values are only carried around and compared.
-/

/-- A JSON value, as produced by Python's `json.loads`. -/
inductive Json where
  | null
  | bool (b : Bool)
  | num (q : Rat)
  | str (s : String)
  | arr (elems : List Json)
  | obj (fields : List (String × Json))
  deriving Repr, Inhabited

/-- A Python dict with string keys holding JSON values. -/
abbrev Dict := List (String × Json)

/-- Returns `true` exactly for JSON objects (Python dicts). -/
def Json.isObj : Json → Bool
  | Json.obj _ => true
  | _ => false

/-- The double-quote character. -/
def quoteChar : Char := Char.ofNat 34

/-- The backslash character. -/
def backslashChar : Char := Char.ofNat 92

/-- The opening curly bracket character. -/
def lcurlyChar : Char := Char.ofNat 123

/-- The closing curly bracket character. -/
def rcurlyChar : Char := Char.ofNat 125

/-- Drop leading JSON whitespace. -/
def skipWs : List Char → List Char
  | [] => []
  | c :: rest =>
    if c == ' ' || c == '\t' || c == '\n' || c == '\r' then skipWs rest
    else c :: rest

/-- The numeric value of a list of decimal digit characters. -/
def natOfDigits (ds : List Char) : Nat :=
  ds.foldl (fun n c => n * 10 + (c.toNat - 48)) 0

/-- Split off the longest prefix of decimal digits. -/
def takeDigits : List Char → List Char × List Char
  | [] => ([], [])
  | c :: rest =>
    if c.isDigit then
      let p := takeDigits rest
      (c :: p.1, p.2)
    else ([], c :: rest)

/-- The value of a hexadecimal digit character, if it is one. -/
def hexVal (c : Char) : Option Nat :=
  let n := c.toNat
  if 48 ≤ n && n ≤ 57 then some (n - 48)
  else if 97 ≤ n && n ≤ 102 then some (n - 87)
  else if 65 ≤ n && n ≤ 70 then some (n - 55)
  else none

/-- The character a single-character JSON string escape denotes. -/
def escChar (c : Char) : Option Char :=
  if c == quoteChar then some quoteChar
  else if c == backslashChar then some backslashChar
  else if c == '/' then some '/'
  else if c == 'b' then some (Char.ofNat 8)
  else if c == 'f' then some (Char.ofNat 12)
  else if c == 'n' then some '\n'
  else if c == 'r' then some '\r'
  else if c == 't' then some '\t'
  else none

/-- Assemble a JSON number from sign, integer digits, fraction digits and
exponent, as a rational. -/
def ratOfParts (neg : Bool) (intDs fracDs : List Char) (expNeg : Bool)
    (expDs : List Char) : Rat :=
  let m : Int := (natOfDigits (intDs ++ fracDs) : Int)
  let m : Int := if neg then -m else m
  let e : Int :=
    (if expNeg then -(natOfDigits expDs : Int) else (natOfDigits expDs : Int))
      - (fracDs.length : Int)
  if 0 ≤ e then ((m * 10 ^ e.toNat : Int) : Rat)
  else mkRat m (10 ^ (-e).toNat)

/-- Parse a JSON number (sign, digits, optional fraction and exponent) from
the front of the input. -/
def parseNumber (cs : List Char) : Except String (Rat × List Char) :=
  let p0 : Bool × List Char :=
    match cs with
    | c :: rest => if c == '-' then (true, rest) else (false, cs)
    | [] => (false, cs)
  match takeDigits p0.2 with
  | ([], _) => Except.error "Expecting value"
  | (intDs, rest1) =>
    let pf : Option (List Char) × List Char :=
      match rest1 with
      | c :: r =>
        if c == '.' then
          let q := takeDigits r
          (some q.1, q.2)
        else (none, rest1)
      | [] => (none, rest1)
    match pf.1 with
    | some [] => Except.error "Expecting digits after decimal point"
    | fracOpt =>
      let fracDs := fracOpt.getD []
      let rest2 := pf.2
      match rest2 with
      | c :: r =>
        if c == 'e' || c == 'E' then
          let pe : Bool × List Char :=
            match r with
            | d :: r2 =>
              if d == '-' then (true, r2)
              else if d == '+' then (false, r2)
              else (false, r)
            | [] => (false, r)
          match takeDigits pe.2 with
          | ([], _) => Except.error "Expecting digits in exponent"
          | (expDs, rest3) =>
            Except.ok (ratOfParts p0.1 intDs fracDs pe.1 expDs, rest3)
        else Except.ok (ratOfParts p0.1 intDs fracDs false [], rest2)
      | [] => Except.ok (ratOfParts p0.1 intDs fracDs false [], rest2)

mutual

/-- Parse one JSON value from the front of the input (fuelled). Models the
recursive-descent grammar accepted by Python's `json.loads`. -/
def parseVal : Nat → List Char → Except String (Json × List Char)
  | 0, _ => Except.error "Too deeply nested"
  | fuel + 1, cs =>
    match skipWs cs with
    | [] => Except.error "Expecting value"
    | c :: rest =>
      if c == lcurlyChar then
        match skipWs rest with
        | c2 :: rest2 =>
          if c2 == rcurlyChar then Except.ok (Json.obj [], rest2)
          else
            match parseMembers fuel (c2 :: rest2) with
            | Except.ok (fs, rem) => Except.ok (Json.obj fs, rem)
            | Except.error m => Except.error m
        | [] => Except.error "Unterminated object"
      else if c == '[' then
        match skipWs rest with
        | c2 :: rest2 =>
          if c2 == ']' then Except.ok (Json.arr [], rest2)
          else
            match parseElems fuel (c2 :: rest2) with
            | Except.ok (vs, rem) => Except.ok (Json.arr vs, rem)
            | Except.error m => Except.error m
        | [] => Except.error "Unterminated array"
      else if c == quoteChar then
        match parseStr fuel rest with
        | Except.ok (s, rem) => Except.ok (Json.str (String.mk s), rem)
        | Except.error m => Except.error m
      else if c == 't' then
        match rest with
        | 'r' :: 'u' :: 'e' :: rem => Except.ok (Json.bool true, rem)
        | _ => Except.error "Expecting value"
      else if c == 'f' then
        match rest with
        | 'a' :: 'l' :: 's' :: 'e' :: rem => Except.ok (Json.bool false, rem)
        | _ => Except.error "Expecting value"
      else if c == 'n' then
        match rest with
        | 'u' :: 'l' :: 'l' :: rem => Except.ok (Json.null, rem)
        | _ => Except.error "Expecting value"
      else if c == '-' || c.isDigit then
        match parseNumber (c :: rest) with
        | Except.ok (q, rem) => Except.ok (Json.num q, rem)
        | Except.error m => Except.error m
      else Except.error "Expecting value"

/-- Parse the elements of a non-empty JSON array, after the opening bracket
(and any empty-array check) has been consumed. -/
def parseElems : Nat → List Char → Except String (List Json × List Char)
  | 0, _ => Except.error "Too deeply nested"
  | fuel + 1, cs =>
    match parseVal fuel cs with
    | Except.error m => Except.error m
    | Except.ok (v, rest) =>
      match skipWs rest with
      | c :: rest2 =>
        if c == ',' then
          match parseElems fuel rest2 with
          | Except.ok (vs, rem) => Except.ok (v :: vs, rem)
          | Except.error m => Except.error m
        else if c == ']' then Except.ok ([v], rest2)
        else Except.error "Expecting comma delimiter"
      | [] => Except.error "Unterminated array"

/-- Parse the members of a non-empty JSON object, after the opening curly
bracket (and any empty-object check) has been consumed. -/
def parseMembers : Nat → List Char → Except String (Dict × List Char)
  | 0, _ => Except.error "Too deeply nested"
  | fuel + 1, cs =>
    match skipWs cs with
    | c :: rest =>
      if c == quoteChar then
        match parseStr fuel rest with
        | Except.error m => Except.error m
        | Except.ok (key, rest2) =>
          match skipWs rest2 with
          | c2 :: rest3 =>
            if c2 == ':' then
              match parseVal fuel rest3 with
              | Except.error m => Except.error m
              | Except.ok (v, rest4) =>
                match skipWs rest4 with
                | c3 :: rest5 =>
                  if c3 == ',' then
                    match parseMembers fuel rest5 with
                    | Except.ok (fs, rem) =>
                      Except.ok ((String.mk key, v) :: fs, rem)
                    | Except.error m => Except.error m
                  else if c3 == rcurlyChar then
                    Except.ok ([(String.mk key, v)], rest5)
                  else Except.error "Expecting comma delimiter"
                | [] => Except.error "Unterminated object"
            else Except.error "Expecting colon delimiter"
          | [] => Except.error "Unterminated object"
      else Except.error "Expecting property name enclosed in double quotes"
    | [] => Except.error "Unterminated object"

/-- Parse the body of a JSON string after the opening quote, handling
escapes; returns the characters and the remaining input. -/
def parseStr : Nat → List Char → Except String (List Char × List Char)
  | 0, _ => Except.error "String too long"
  | fuel + 1, cs =>
    match cs with
    | [] => Except.error "Unterminated string"
    | c :: rest =>
      if c == quoteChar then Except.ok ([], rest)
      else if c == backslashChar then
        match rest with
        | [] => Except.error "Unterminated string"
        | e :: rest2 =>
          if e == 'u' then
            match rest2 with
            | h1 :: h2 :: h3 :: h4 :: rest3 =>
              match hexVal h1, hexVal h2, hexVal h3, hexVal h4 with
              | some a, some b, some c3, some d =>
                match parseStr fuel rest3 with
                | Except.ok (out, rem) =>
                  Except.ok (Char.ofNat (((a * 16 + b) * 16 + c3) * 16 + d) :: out, rem)
                | Except.error m => Except.error m
              | _, _, _, _ => Except.error "Invalid unicode escape"
            | _ => Except.error "Invalid unicode escape"
          else
            match escChar e with
            | some ec =>
              match parseStr fuel rest2 with
              | Except.ok (out, rem) => Except.ok (ec :: out, rem)
              | Except.error m => Except.error m
            | none => Except.error "Invalid escape"
      else
        match parseStr fuel rest with
        | Except.ok (out, rem) => Except.ok (c :: out, rem)
        | Except.error m => Except.error m

end

/-- Model of Python's `json.loads` (line 111 / 142 of the source): parse a
complete JSON document, rejecting trailing data; on malformed input it
raises, modelled as `Except.error` carrying the exception's string form. -/
def json_loads (s : String) : Except String Json :=
  match parseVal (2 * s.data.length + 8) s.data with
  | Except.error m => Except.error m
  | Except.ok (v, rest) =>
    match skipWs rest with
    | [] => Except.ok v
    | _ :: _ => Except.error "Extra data"

/-! ### Request/response models (src/http_api_server.py lines 37-56) -/

/-- Model of `class LineItem(BaseModel)` (lines 38-42): `variant_id : int`,
`quantity : int`, `title : str = "Product"`, `price : float = 0.0`. -/
structure LineItem where
  variant_id : Int
  quantity : Int
  title : String := "Product"
  price : Rat := 0
  deriving Repr, DecidableEq

/-- Model of `class CreateOrderRequest(BaseModel)` (lines 44-48): `line_items :
List[LineItem]`, `customer_email : str`, `financial_status : str = "paid"`,
`test : bool = True`. -/
structure CreateOrderRequest where
  line_items : List LineItem
  customer_email : String
  financial_status : String := "paid"
  test : Bool := true
  deriving Repr, DecidableEq

/-- Model of `class GetOrderStatusRequest(BaseModel)` (lines 50-51). -/
structure GetOrderStatusRequest where
  order_id : Int
  deriving Repr, DecidableEq

/-- Model of `class OrderResponse(BaseModel)` (lines 53-56): `success : bool`,
`data : dict`, `error : Optional[str] = None`. -/
structure OrderResponse where
  success : Bool
  data : Dict
  error : Option String := none
  deriving Repr

/-! ### Structural validation (the FastAPI/pydantic request-parsing layer)

FastAPI validates each request body against the declared pydantic model
before the handler body runs; missing required fields or wrong-typed
fields produce a 422 validation response.  The validators below are the
direct reading of the model declarations above: a required field must be
present with the declared type, an optional field falls back to its
declared default. -/

/-- Look up a key in a parsed JSON object (Python dict access). -/
def getField (fields : Dict) (name : String) : Option Json :=
  match fields with
  | [] => none
  | kv :: rest => if kv.1 == name then some kv.2 else getField rest name

/-- Validate a required `int` field: it must be present and hold an
integral JSON number (JSON booleans are not accepted for `int`). -/
def requireInt (fields : Dict) (name : String) : Except String Int :=
  match getField fields name with
  | none => Except.error ("Field required: " ++ name)
  | some (Json.num q) =>
    if q.den = 1 then Except.ok q.num
    else Except.error ("Input should be a valid integer: " ++ name)
  | some _ => Except.error ("Input should be a valid integer: " ++ name)

/-- Validate a required `str` field. -/
def requireStr (fields : Dict) (name : String) : Except String String :=
  match getField fields name with
  | none => Except.error ("Field required: " ++ name)
  | some (Json.str s) => Except.ok s
  | some _ => Except.error ("Input should be a valid string: " ++ name)

/-- Validate an optional `str` field with a declared default. -/
def optStr (fields : Dict) (name : String) (dflt : String) :
    Except String String :=
  match getField fields name with
  | none => Except.ok dflt
  | some (Json.str s) => Except.ok s
  | some _ => Except.error ("Input should be a valid string: " ++ name)

/-- Validate an optional `float` field with a declared default (any JSON
number is accepted). -/
def optNum (fields : Dict) (name : String) (dflt : Rat) : Except String Rat :=
  match getField fields name with
  | none => Except.ok dflt
  | some (Json.num q) => Except.ok q
  | some _ => Except.error ("Input should be a valid number: " ++ name)

/-- Validate an optional `bool` field with a declared default. -/
def optBool (fields : Dict) (name : String) (dflt : Bool) :
    Except String Bool :=
  match getField fields name with
  | none => Except.ok dflt
  | some (Json.bool b) => Except.ok b
  | some _ => Except.error ("Input should be a valid boolean: " ++ name)

/-- Structural validation of one `LineItem` from its JSON form, applying
the declared defaults `title = "Product"` and `price = 0.0`. -/
def LineItem.validate (j : Json) : Except String LineItem :=
  match j with
  | Json.obj fields =>
    match requireInt fields "variant_id" with
    | Except.error m => Except.error m
    | Except.ok variant_id =>
      match requireInt fields "quantity" with
      | Except.error m => Except.error m
      | Except.ok quantity =>
        match optStr fields "title" "Product" with
        | Except.error m => Except.error m
        | Except.ok title =>
          match optNum fields "price" 0 with
          | Except.error m => Except.error m
          | Except.ok price =>
            Except.ok { variant_id := variant_id, quantity := quantity,
                        title := title, price := price }
  | _ => Except.error "Input should be a valid dictionary: LineItem"

/-- Validate each element of the `line_items` array in order. -/
def validateLineItems : List Json → Except String (List LineItem)
  | [] => Except.ok []
  | j :: rest =>
    match LineItem.validate j with
    | Except.error m => Except.error m
    | Except.ok item =>
      match validateLineItems rest with
      | Except.error m => Except.error m
      | Except.ok items => Except.ok (item :: items)

/-- Structural validation of a `CreateOrderRequest` body: `line_items`
(required list of line items) and `customer_email` (required string) must
be present and well-typed; `financial_status` defaults to `"paid"` and
`test` to `True`. -/
def CreateOrderRequest.validate (j : Json) : Except String CreateOrderRequest :=
  match j with
  | Json.obj fields =>
    match getField fields "line_items" with
    | none => Except.error "Field required: line_items"
    | some (Json.arr elems) =>
      match validateLineItems elems with
      | Except.error m => Except.error m
      | Except.ok line_items =>
        match requireStr fields "customer_email" with
        | Except.error m => Except.error m
        | Except.ok customer_email =>
          match optStr fields "financial_status" "paid" with
          | Except.error m => Except.error m
          | Except.ok financial_status =>
            match optBool fields "test" true with
            | Except.error m => Except.error m
            | Except.ok test =>
              Except.ok { line_items := line_items,
                          customer_email := customer_email,
                          financial_status := financial_status,
                          test := test }
    | some _ => Except.error "Input should be a valid list: line_items"
  | _ => Except.error "Input should be a valid dictionary: CreateOrderRequest"

/-- Structural validation of a `GetOrderStatusRequest` body. -/
def GetOrderStatusRequest.validate (j : Json) :
    Except String GetOrderStatusRequest :=
  match j with
  | Json.obj fields =>
    match requireInt fields "order_id" with
    | Except.error m => Except.error m
    | Except.ok order_id => Except.ok { order_id := order_id }
  | _ => Except.error "Input should be a valid dictionary: GetOrderStatusRequest"

/-! ### The delegated MCP capabilities (imported on line 20)

`create_order` and `get_order_status` live in `shopify_mcp_server` and are
opaque external collaborators: each either returns a JSON-encoded string
or raises.  They are modelled as oracle parameters of the handlers. -/

/-- Type of the delegated `create_order(line_items, customer_email,
financial_status, test)` capability: returns a JSON-encoded string
(`Except.ok`) or raises (`Except.error` with the exception's string form). -/
abbrev CreateOrderTool :=
  List Dict → String → String → Bool → Except String String

/-- Type of the delegated `get_order_status(order_id)` capability. -/
abbrev GetOrderStatusTool := Int → Except String String

/-! ### Handlers (src/http_api_server.py lines 76-153) -/

/-- Constructing `OrderResponse(success=..., data=result)` (lines 113-116 /
144-147): pydantic validates the assignment of `result` to the declared
field `data : dict`; a non-dict value raises a `ValidationError`, which the
surrounding `except Exception` block catches.  The `error` field takes its
declared default `None`. -/
def OrderResponse.from_data (success : Bool) (result : Json) :
    Except String OrderResponse :=
  match result with
  | Json.obj fields =>
    Except.ok { success := success, data := fields, error := none }
  | _ =>
    Except.error "1 validation error for OrderResponse: data: Input should be a valid dictionary"

/-- Model of `item.model_dump()` (line 100): the dict form of a line item, all four
fields preserved. -/
def LineItem.model_dump (item : LineItem) : Dict :=
  [("variant_id", Json.num (item.variant_id : Rat)),
   ("quantity", Json.num (item.quantity : Rat)),
   ("title", Json.str item.title),
   ("price", Json.num item.price)]

/-- The `try` block of `create_order_endpoint` (lines 98-116): dump the
line items, call the delegated `create_order`, parse its JSON result and
build the success response; any step may raise (`Except.error`). -/
def create_order_try (create_order : CreateOrderTool)
    (request : CreateOrderRequest) : Except String OrderResponse :=
  match create_order (request.line_items.map LineItem.model_dump)
      request.customer_email request.financial_status request.test with
  | Except.error e => Except.error e
  | Except.ok result_json =>
    match json_loads result_json with
    | Except.error e => Except.error e
    | Except.ok result => OrderResponse.from_data true result

/-- Model of `create_order_endpoint` (lines 76-122): run the try block; any raised
exception `e` is caught and turned into
`OrderResponse(success=False, data={}, error=str(e))`. -/
def create_order_endpoint (create_order : CreateOrderTool)
    (request : CreateOrderRequest) : OrderResponse :=
  match create_order_try create_order request with
  | Except.ok resp => resp
  | Except.error e => { success := false, data := [], error := some e }

/-- The handler's result as a function of the delegated call's outcome:
used to state that the endpoint forwards the dumped line items to the
delegated capability and afterwards only processes that outcome. -/
def create_order_finish (outcome : Except String String) : OrderResponse :=
  match outcome with
  | Except.error e => { success := false, data := [], error := some e }
  | Except.ok result_json =>
    match json_loads result_json with
    | Except.error e => { success := false, data := [], error := some e }
    | Except.ok result =>
      match OrderResponse.from_data true result with
      | Except.ok resp => resp
      | Except.error e => { success := false, data := [], error := some e }

/-- The `try` block of `get_order_status_endpoint` (lines 137-147). -/
def get_order_status_try (get_order_status : GetOrderStatusTool)
    (request : GetOrderStatusRequest) : Except String OrderResponse :=
  match get_order_status request.order_id with
  | Except.error e => Except.error e
  | Except.ok result_json =>
    match json_loads result_json with
    | Except.error e => Except.error e
    | Except.ok result => OrderResponse.from_data true result

/-- Model of `get_order_status_endpoint` (lines 125-153). -/
def get_order_status_endpoint (get_order_status : GetOrderStatusTool)
    (request : GetOrderStatusRequest) : OrderResponse :=
  match get_order_status_try get_order_status request with
  | Except.ok resp => resp
  | Except.error e => { success := false, data := [], error := some e }

/-! ### Static endpoints and routing (lines 59-73 and the FastAPI app) -/

/-- The body returned by `GET /` (lines 59-69). -/
def root : Json :=
  Json.obj
    [("service", Json.str "Shopify MCP Server HTTP API"),
     ("status", Json.str "running"),
     ("endpoints", Json.obj
        [("create_order", Json.str "/api/orders/create"),
         ("get_order_status", Json.str "/api/orders/status"),
         ("health", Json.str "/health")])]

/-- The body returned by `GET /health` (lines 71-73). -/
def health_check : Json := Json.obj [("status", Json.str "healthy")]

/-- Serialization of the response model (FastAPI's `response_model=
OrderResponse`): all three fields are always present; `error = None`
serializes to JSON `null`. -/
def OrderResponse.model_dump (r : OrderResponse) : Json :=
  Json.obj
    [("success", Json.bool r.success),
     ("data", Json.obj r.data),
     ("error", match r.error with
               | none => Json.null
               | some e => Json.str e)]

/-- HTTP method of an incoming request. -/
inductive Method where
  | get
  | post
  deriving Repr, DecidableEq

/-- An HTTP response: numeric status code and JSON body. -/
structure HttpResponse where
  status : Nat
  body : Json
  deriving Repr

/-- The FastAPI application: route the request, run structural validation
on the body for the POST endpoints (422 with a framework-generated body on
failure, before the handler body executes), then run the handler and
serialize its envelope with status 200. -/
def app (create_order : CreateOrderTool) (get_order_status : GetOrderStatusTool)
    (m : Method) (path : String) (body : Json) : HttpResponse :=
  match m with
  | Method.get =>
    if path == "/" then { status := 200, body := root }
    else if path == "/health" then { status := 200, body := health_check }
    else { status := 404, body := Json.obj [("detail", Json.str "Not Found")] }
  | Method.post =>
    if path == "/api/orders/create" then
      match CreateOrderRequest.validate body with
      | Except.error msg =>
        { status := 422, body := Json.obj [("detail", Json.str msg)] }
      | Except.ok request =>
        { status := 200,
          body := (create_order_endpoint create_order request).model_dump }
    else if path == "/api/orders/status" then
      match GetOrderStatusRequest.validate body with
      | Except.error msg =>
        { status := 422, body := Json.obj [("detail", Json.str msg)] }
      | Except.ok request =>
        { status := 200,
          body := (get_order_status_endpoint get_order_status request).model_dump }
    else { status := 404, body := Json.obj [("detail", Json.str "Not Found")] }

/-! ### Helper lemmas -/

/-- The create-order handler factors through the outcome of the delegated
call on the dumped line items. -/
theorem create_order_endpoint_eq_finish (create_order : CreateOrderTool)
    (request : CreateOrderRequest) :
    create_order_endpoint create_order request =
      create_order_finish (create_order (request.line_items.map LineItem.model_dump)
        request.customer_email request.financial_status request.test) := by
  cases hc : create_order (request.line_items.map LineItem.model_dump)
      request.customer_email request.financial_status request.test with
  | error e =>
    simp [create_order_endpoint, create_order_try, create_order_finish, hc]
  | ok s =>
    cases hp : json_loads s with
    | error e =>
      simp [create_order_endpoint, create_order_try, create_order_finish, hc, hp]
    | ok v =>
      cases v <;>
        simp [create_order_endpoint, create_order_try, create_order_finish,
          OrderResponse.from_data, hc, hp]

/-- Every envelope the create-order handler produces is either a success
envelope with `error = none` or the uniform failure envelope. -/
theorem create_order_endpoint_cases (create_order : CreateOrderTool)
    (request : CreateOrderRequest) :
    (∃ d, create_order_endpoint create_order request =
        { success := true, data := d, error := none }) ∨
    (∃ e, create_order_endpoint create_order request =
        { success := false, data := [], error := some e }) := by
  cases hc : create_order (request.line_items.map LineItem.model_dump)
      request.customer_email request.financial_status request.test with
  | error e =>
    exact Or.inr ⟨e, by simp [create_order_endpoint, create_order_try, hc]⟩
  | ok s =>
    cases hp : json_loads s with
    | error e =>
      exact Or.inr ⟨e, by simp [create_order_endpoint, create_order_try, hc, hp]⟩
    | ok v =>
      cases v with
      | obj fields =>
        exact Or.inl ⟨fields, by
          simp [create_order_endpoint, create_order_try, OrderResponse.from_data, hc, hp]⟩
      | null =>
        exact Or.inr ⟨"1 validation error for OrderResponse: data: Input should be a valid dictionary", by
          simp [create_order_endpoint, create_order_try, OrderResponse.from_data, hc, hp]⟩
      | bool b =>
        exact Or.inr ⟨"1 validation error for OrderResponse: data: Input should be a valid dictionary", by
          simp [create_order_endpoint, create_order_try, OrderResponse.from_data, hc, hp]⟩
      | num q =>
        exact Or.inr ⟨"1 validation error for OrderResponse: data: Input should be a valid dictionary", by
          simp [create_order_endpoint, create_order_try, OrderResponse.from_data, hc, hp]⟩
      | str s2 =>
        exact Or.inr ⟨"1 validation error for OrderResponse: data: Input should be a valid dictionary", by
          simp [create_order_endpoint, create_order_try, OrderResponse.from_data, hc, hp]⟩
      | arr elems =>
        exact Or.inr ⟨"1 validation error for OrderResponse: data: Input should be a valid dictionary", by
          simp [create_order_endpoint, create_order_try, OrderResponse.from_data, hc, hp]⟩

/-- Every envelope the order-status handler produces is either a success
envelope with `error = none` or the uniform failure envelope. -/
theorem get_order_status_endpoint_cases (get_order_status : GetOrderStatusTool)
    (request : GetOrderStatusRequest) :
    (∃ d, get_order_status_endpoint get_order_status request =
        { success := true, data := d, error := none }) ∨
    (∃ e, get_order_status_endpoint get_order_status request =
        { success := false, data := [], error := some e }) := by
  cases hc : get_order_status request.order_id with
  | error e =>
    exact Or.inr ⟨e, by simp [get_order_status_endpoint, get_order_status_try, hc]⟩
  | ok s =>
    cases hp : json_loads s with
    | error e =>
      exact Or.inr ⟨e, by
        simp [get_order_status_endpoint, get_order_status_try, hc, hp]⟩
    | ok v =>
      cases v with
      | obj fields =>
        exact Or.inl ⟨fields, by
          simp [get_order_status_endpoint, get_order_status_try,
            OrderResponse.from_data, hc, hp]⟩
      | null =>
        exact Or.inr ⟨"1 validation error for OrderResponse: data: Input should be a valid dictionary", by
          simp [get_order_status_endpoint, get_order_status_try,
            OrderResponse.from_data, hc, hp]⟩
      | bool b =>
        exact Or.inr ⟨"1 validation error for OrderResponse: data: Input should be a valid dictionary", by
          simp [get_order_status_endpoint, get_order_status_try,
            OrderResponse.from_data, hc, hp]⟩
      | num q =>
        exact Or.inr ⟨"1 validation error for OrderResponse: data: Input should be a valid dictionary", by
          simp [get_order_status_endpoint, get_order_status_try,
            OrderResponse.from_data, hc, hp]⟩
      | str s2 =>
        exact Or.inr ⟨"1 validation error for OrderResponse: data: Input should be a valid dictionary", by
          simp [get_order_status_endpoint, get_order_status_try,
            OrderResponse.from_data, hc, hp]⟩
      | arr elems =>
        exact Or.inr ⟨"1 validation error for OrderResponse: data: Input should be a valid dictionary", by
          simp [get_order_status_endpoint, get_order_status_try,
            OrderResponse.from_data, hc, hp]⟩

/-! ### Claims -/

/-- C7: `GET /health` always returns the body `{"status": "healthy"}` with
status 200, for every pair of delegated capabilities and every request
body — the route neither inspects the body nor invokes either capability. -/
theorem health_endpoint_constant (create_order : CreateOrderTool)
    (get_order_status : GetOrderStatusTool) (body : Json) :
    app create_order get_order_status Method.get "/health" body =
      { status := 200, body := Json.obj [("status", Json.str "healthy")] } ∧
    health_check = Json.obj [("status", Json.str "healthy")] :=
  ⟨rfl, rfl⟩

/-- C4: every line item of a create-order request is forwarded to the
delegated `create_order` call as a field mapping preserving all four values
exactly, the ordered sequence is forwarded order-preservingly (position by
position), the handler's result depends on the request only through that
forwarded call, and the concrete item
`{variantId: 12345, quantity: 1, title: "Widget", price: 9.99}` dumps to
the equivalent mapping. -/
theorem line_items_forwarded_exactly (create_order : CreateOrderTool)
    (request : CreateOrderRequest) :
    (∀ item : LineItem, LineItem.model_dump item =
      [("variant_id", Json.num (item.variant_id : Rat)),
       ("quantity", Json.num (item.quantity : Rat)),
       ("title", Json.str item.title),
       ("price", Json.num item.price)]) ∧
    (∀ i : Nat, (request.line_items.map LineItem.model_dump)[i]? =
      Option.map LineItem.model_dump request.line_items[i]?) ∧
    create_order_endpoint create_order request =
      create_order_finish (create_order (request.line_items.map LineItem.model_dump)
        request.customer_email request.financial_status request.test) ∧
    LineItem.model_dump
        { variant_id := 12345, quantity := 1, title := "Widget", price := 9.99 } =
      [("variant_id", Json.num 12345), ("quantity", Json.num 1),
       ("title", Json.str "Widget"), ("price", Json.num 9.99)] :=
  ⟨fun _ => rfl,
   fun i => List.getElem?_map LineItem.model_dump request.line_items i,
   create_order_endpoint_eq_finish create_order request,
   by norm_num [LineItem.model_dump]⟩

/-- C5: for every request reaching a handler body, the handler returns
normally with either a success envelope or the uniform failure envelope —
and whenever the delegated invocation or result parsing raises `e`
(i.e. the try block fails with `e`), the result is exactly the uniform
failure envelope carrying `e`; no exception escapes the handler. -/
theorem handlers_never_propagate_exceptions (create_order : CreateOrderTool)
    (get_order_status : GetOrderStatusTool) (request : CreateOrderRequest)
    (sreq : GetOrderStatusRequest) :
    ((∃ d, create_order_endpoint create_order request =
        { success := true, data := d, error := none }) ∨
     (∃ e, create_order_endpoint create_order request =
        { success := false, data := [], error := some e })) ∧
    ((∃ d, get_order_status_endpoint get_order_status sreq =
        { success := true, data := d, error := none }) ∨
     (∃ e, get_order_status_endpoint get_order_status sreq =
        { success := false, data := [], error := some e })) ∧
    (∀ e, create_order_try create_order request = Except.error e →
      create_order_endpoint create_order request =
        { success := false, data := [], error := some e }) ∧
    (∀ e, get_order_status_try get_order_status sreq = Except.error e →
      get_order_status_endpoint get_order_status sreq =
        { success := false, data := [], error := some e }) := by
  refine ⟨create_order_endpoint_cases create_order request,
          get_order_status_endpoint_cases get_order_status sreq, ?_, ?_⟩
  · intro e he
    unfold create_order_endpoint
    rw [he]
  · intro e he
    unfold get_order_status_endpoint
    rw [he]

/-- C5 witness: a delegated call raising `"boom"` is converted into the
uniform failure envelope by both handlers. -/
theorem handlers_never_propagate_exceptions_witness :
    create_order_endpoint (fun _ _ _ _ => Except.error "boom")
      { line_items := [], customer_email := "c@example.com" } =
      { success := false, data := [], error := some "boom" } ∧
    get_order_status_endpoint (fun _ => Except.error "boom") { order_id := 7 } =
      { success := false, data := [], error := some "boom" } :=
  ⟨(handlers_never_propagate_exceptions (fun _ _ _ _ => Except.error "boom")
      (fun _ => Except.error "boom")
      { line_items := [], customer_email := "c@example.com" }
      { order_id := 7 }).2.2.1 "boom" rfl,
   (handlers_never_propagate_exceptions (fun _ _ _ _ => Except.error "boom")
      (fun _ => Except.error "boom")
      { line_items := [], customer_email := "c@example.com" }
      { order_id := 7 }).2.2.2 "boom" rfl⟩

/-- C2: whenever the delegated call or the JSON parsing of its result
raises `e`, either handler returns `{success: false, data: {}, error:
str(e)}`; at the HTTP level the status stays 200; and the concrete
scenario `POST /api/orders/status` with `order_id 999` against a
capability raising `"not found"` yields
`{"success": false, "data": {}, "error": "not found"}` with status 200. -/
theorem delegated_failure_uniform_envelope (create_order : CreateOrderTool)
    (get_order_status : GetOrderStatusTool) (request : CreateOrderRequest)
    (sreq : GetOrderStatusRequest) (body : Json) (req2 : CreateOrderRequest)
    (e s : String) :
    (create_order (request.line_items.map LineItem.model_dump)
        request.customer_email request.financial_status request.test =
        Except.error e →
      create_order_endpoint create_order request =
        { success := false, data := [], error := some e }) ∧
    (create_order (request.line_items.map LineItem.model_dump)
        request.customer_email request.financial_status request.test =
        Except.ok s →
      json_loads s = Except.error e →
      create_order_endpoint create_order request =
        { success := false, data := [], error := some e }) ∧
    (get_order_status sreq.order_id = Except.error e →
      get_order_status_endpoint get_order_status sreq =
        { success := false, data := [], error := some e }) ∧
    (get_order_status sreq.order_id = Except.ok s →
      json_loads s = Except.error e →
      get_order_status_endpoint get_order_status sreq =
        { success := false, data := [], error := some e }) ∧
    (CreateOrderRequest.validate body = Except.ok req2 →
      create_order (req2.line_items.map LineItem.model_dump)
          req2.customer_email req2.financial_status req2.test =
          Except.error e →
      app create_order get_order_status Method.post "/api/orders/create" body =
        { status := 200,
          body := OrderResponse.model_dump
            { success := false, data := [], error := some e } }) ∧
    app create_order (fun _ => Except.error "not found") Method.post
        "/api/orders/status" (Json.obj [("order_id", Json.num 999)]) =
      { status := 200,
        body := Json.obj [("success", Json.bool false), ("data", Json.obj []),
                          ("error", Json.str "not found")] } := by
  refine ⟨?_, ?_, ?_, ?_, ?_, rfl⟩
  · intro hc
    simp [create_order_endpoint, create_order_try, hc]
  · intro hc hp
    simp [create_order_endpoint, create_order_try, hc, hp]
  · intro hc
    simp [get_order_status_endpoint, get_order_status_try, hc]
  · intro hc hp
    simp [get_order_status_endpoint, get_order_status_try, hc, hp]
  · intro hv hc
    have happ : app create_order get_order_status Method.post
        "/api/orders/create" body =
        (match CreateOrderRequest.validate body with
         | Except.error msg =>
           { status := 422, body := Json.obj [("detail", Json.str msg)] }
         | Except.ok request =>
           { status := 200,
             body := (create_order_endpoint create_order request).model_dump }) := rfl
    have hend : create_order_endpoint create_order req2 =
        { success := false, data := [], error := some e } := by
      simp [create_order_endpoint, create_order_try, hc]
    rw [happ, hv]
    exact congrArg (fun b => HttpResponse.mk 200 b)
      (congrArg OrderResponse.model_dump hend)

/-- C2 witness: the four failure shapes at concrete inputs — a raising
create-order call, a create-order result that fails to parse, a raising
status call, and a status result that fails to parse. -/
theorem delegated_failure_uniform_envelope_witness :
    create_order_endpoint (fun _ _ _ _ => Except.error "boom")
      { line_items := [], customer_email := "c@example.com" } =
      { success := false, data := [], error := some "boom" } ∧
    create_order_endpoint (fun _ _ _ _ => Except.ok "oops")
      { line_items := [], customer_email := "c@example.com" } =
      { success := false, data := [], error := some "Expecting value" } ∧
    get_order_status_endpoint (fun _ => Except.error "not found")
      { order_id := 999 } =
      { success := false, data := [], error := some "not found" } ∧
    get_order_status_endpoint (fun _ => Except.ok "oops") { order_id := 999 } =
      { success := false, data := [], error := some "Expecting value" } ∧
    app (fun _ _ _ _ => Except.error "x") (fun _ => Except.error "not found")
        Method.post "/api/orders/status" (Json.obj [("order_id", Json.num 999)]) =
      { status := 200,
        body := Json.obj [("success", Json.bool false), ("data", Json.obj []),
                          ("error", Json.str "not found")] } :=
  ⟨(delegated_failure_uniform_envelope (fun _ _ _ _ => Except.error "boom")
      (fun _ => Except.error "x") { line_items := [], customer_email := "c@example.com" }
      { order_id := 999 } Json.null { line_items := [], customer_email := "c@example.com" }
      "boom" "s").1 rfl,
   (delegated_failure_uniform_envelope (fun _ _ _ _ => Except.ok "oops")
      (fun _ => Except.error "x") { line_items := [], customer_email := "c@example.com" }
      { order_id := 999 } Json.null { line_items := [], customer_email := "c@example.com" }
      "Expecting value" "oops").2.1 rfl rfl,
   (delegated_failure_uniform_envelope (fun _ _ _ _ => Except.error "x")
      (fun _ => Except.error "not found") { line_items := [], customer_email := "c@example.com" }
      { order_id := 999 } Json.null { line_items := [], customer_email := "c@example.com" }
      "not found" "s").2.2.1 rfl,
   (delegated_failure_uniform_envelope (fun _ _ _ _ => Except.error "x")
      (fun _ => Except.ok "oops") { line_items := [], customer_email := "c@example.com" }
      { order_id := 999 } Json.null { line_items := [], customer_email := "c@example.com" }
      "Expecting value" "oops").2.2.2.1 rfl rfl,
   (delegated_failure_uniform_envelope (fun _ _ _ _ => Except.error "x")
      (fun _ => Except.error "y") { line_items := [], customer_email := "c@example.com" }
      { order_id := 999 } Json.null { line_items := [], customer_email := "c@example.com" }
      "e" "s").2.2.2.2.2⟩

/-- C1 counterexample: the delegated `create_order` returns the
JSON-encoded string `"[1, 2]"` without raising (it parses to the JSON
array `[1, 2]`), yet the handler produces a failure envelope, not
`success = true` with `data` equal to the parsed value. -/
theorem create_order_array_result_counterexample :
    json_loads "[1, 2]" = Except.ok (Json.arr [Json.num 1, Json.num 2]) ∧
    create_order_endpoint (fun _ _ _ _ => Except.ok "[1, 2]")
      { line_items := [{ variant_id := 12345, quantity := 1 }],
        customer_email := "customer@example.com" } =
      { success := false, data := [],
        error := some "1 validation error for OrderResponse: data: Input should be a valid dictionary" } :=
  ⟨rfl, rfl⟩

/-- C1 (amended): for every structurally valid `CreateOrderRequest`, if
the delegated `create_order` returns without raising a string that parses
as a JSON object, the handler's envelope has `success = true`, `data`
equal to that parsed object, and `error = null`. -/
theorem create_order_success_envelope (create_order : CreateOrderTool)
    (request : CreateOrderRequest) (s : String) (fields : Dict)
    (hcall : create_order (request.line_items.map LineItem.model_dump)
        request.customer_email request.financial_status request.test =
        Except.ok s)
    (hparse : json_loads s = Except.ok (Json.obj fields)) :
    create_order_endpoint create_order request =
      { success := true, data := fields, error := none } := by
  simp [create_order_endpoint, create_order_try, OrderResponse.from_data,
    hcall, hparse]

/-- C1 witness: a delegated result of `"{\"id\": 1001}"` produces the
success envelope with the parsed object as `data`. -/
theorem create_order_success_envelope_witness :
    create_order_endpoint (fun _ _ _ _ => Except.ok "\x7b\"id\": 1001\x7d")
      { line_items := [], customer_email := "customer@example.com" } =
      { success := true, data := [("id", Json.num 1001)], error := none } :=
  create_order_success_envelope _
    { line_items := [], customer_email := "customer@example.com" }
    "\x7b\"id\": 1001\x7d" [("id", Json.num 1001)] rfl rfl

/-- C3 counterexample: a delegated result of `"{}"` yields an envelope
with `success = true` whose `data` is the empty mapping, refuting the
claim that `data` is non-empty whenever `success = true`. -/
theorem success_envelope_empty_data_counterexample :
    (create_order_endpoint (fun _ _ _ _ => Except.ok "\x7b\x7d")
      { line_items := [], customer_email := "customer@example.com" }).success = true ∧
    (create_order_endpoint (fun _ _ _ _ => Except.ok "\x7b\x7d")
      { line_items := [], customer_email := "customer@example.com" }).data = [] :=
  ⟨rfl, rfl⟩

/-- C3 (amended): every envelope either handler produces satisfies: when
`success = true` the `error` field is null (and `data` is the parsed
object, possibly empty); when `success = false` the `data` field is the
empty mapping and `error` is non-null; and the serialized form always
carries all of `success`, `data` and `error`. -/
theorem envelope_invariant (create_order : CreateOrderTool)
    (get_order_status : GetOrderStatusTool) (request : CreateOrderRequest)
    (sreq : GetOrderStatusRequest) (r : OrderResponse)
    (hr : r = create_order_endpoint create_order request ∨
          r = get_order_status_endpoint get_order_status sreq) :
    (r.success = true → r.error = none) ∧
    (r.success = false → r.data = [] ∧ r.error ≠ none) ∧
    (∃ fs, r.model_dump = Json.obj fs ∧
      getField fs "success" = some (Json.bool r.success) ∧
      getField fs "data" = some (Json.obj r.data) ∧
      ∃ ej, getField fs "error" = some ej) := by
  have hcases : (∃ d, r = { success := true, data := d, error := none }) ∨
      (∃ e, r = { success := false, data := [], error := some e }) := by
    rcases hr with hr | hr
    · rcases create_order_endpoint_cases create_order request with ⟨d, h⟩ | ⟨e, h⟩
      · exact Or.inl ⟨d, hr.trans h⟩
      · exact Or.inr ⟨e, hr.trans h⟩
    · rcases get_order_status_endpoint_cases get_order_status sreq with ⟨d, h⟩ | ⟨e, h⟩
      · exact Or.inl ⟨d, hr.trans h⟩
      · exact Or.inr ⟨e, hr.trans h⟩
  rcases hcases with ⟨d, rfl⟩ | ⟨e, rfl⟩
  · refine ⟨fun _ => rfl, fun h => Bool.noConfusion h,
      [("success", Json.bool true), ("data", Json.obj d), ("error", Json.null)],
      rfl, rfl, rfl, Json.null, rfl⟩
  · refine ⟨fun h => Bool.noConfusion h, fun _ => ⟨rfl, Option.some_ne_none e⟩,
      [("success", Json.bool false), ("data", Json.obj []), ("error", Json.str e)],
      rfl, rfl, rfl, Json.str e, rfl⟩

/-- C3 witness: for a delegated call raising `"boom"`, the envelope is a
failure envelope with empty `data` and non-null `error`. -/
theorem envelope_invariant_witness :
    (create_order_endpoint (fun _ _ _ _ => Except.error "boom")
      { line_items := [], customer_email := "c@example.com" }).data = [] ∧
    (create_order_endpoint (fun _ _ _ _ => Except.error "boom")
      { line_items := [], customer_email := "c@example.com" }).error ≠ none :=
  (envelope_invariant (fun _ _ _ _ => Except.error "boom")
    (fun _ => Except.error "x") { line_items := [], customer_email := "c@example.com" }
    { order_id := 1 } _ (Or.inl rfl)).2.1 rfl

/-- C10: if the delegated capability returns without raising a string
that parses as a JSON value that is not an object, either handler
returns the failure envelope with empty `data` and a non-null `error`
(constructing the response from a non-mapping value raises inside the
catch-all block), never a success envelope. -/
theorem nonobject_result_failure_envelope (create_order : CreateOrderTool)
    (get_order_status : GetOrderStatusTool) (request : CreateOrderRequest)
    (sreq : GetOrderStatusRequest) (s : String) (v : Json) :
    (create_order (request.line_items.map LineItem.model_dump)
        request.customer_email request.financial_status request.test =
        Except.ok s →
      json_loads s = Except.ok v → v.isObj = false →
      create_order_endpoint create_order request =
        { success := false, data := [],
          error := some "1 validation error for OrderResponse: data: Input should be a valid dictionary" }) ∧
    (get_order_status sreq.order_id = Except.ok s →
      json_loads s = Except.ok v → v.isObj = false →
      get_order_status_endpoint get_order_status sreq =
        { success := false, data := [],
          error := some "1 validation error for OrderResponse: data: Input should be a valid dictionary" }) := by
  constructor
  · intro hc hp hno
    cases v with
    | obj f => exact absurd hno (by simp [Json.isObj])
    | null =>
      simp [create_order_endpoint, create_order_try, OrderResponse.from_data, hc, hp]
    | bool b =>
      simp [create_order_endpoint, create_order_try, OrderResponse.from_data, hc, hp]
    | num q =>
      simp [create_order_endpoint, create_order_try, OrderResponse.from_data, hc, hp]
    | str s2 =>
      simp [create_order_endpoint, create_order_try, OrderResponse.from_data, hc, hp]
    | arr elems =>
      simp [create_order_endpoint, create_order_try, OrderResponse.from_data, hc, hp]
  · intro hc hp hno
    cases v with
    | obj f => exact absurd hno (by simp [Json.isObj])
    | null =>
      simp [get_order_status_endpoint, get_order_status_try, OrderResponse.from_data, hc, hp]
    | bool b =>
      simp [get_order_status_endpoint, get_order_status_try, OrderResponse.from_data, hc, hp]
    | num q =>
      simp [get_order_status_endpoint, get_order_status_try, OrderResponse.from_data, hc, hp]
    | str s2 =>
      simp [get_order_status_endpoint, get_order_status_try, OrderResponse.from_data, hc, hp]
    | arr elems =>
      simp [get_order_status_endpoint, get_order_status_try, OrderResponse.from_data, hc, hp]

/-- C10 witness: a delegated result of `"null"` (JSON null, not an
object) produces the failure envelope in both handlers. -/
theorem nonobject_result_failure_envelope_witness :
    create_order_endpoint (fun _ _ _ _ => Except.ok "null")
      { line_items := [], customer_email := "c@example.com" } =
      { success := false, data := [],
        error := some "1 validation error for OrderResponse: data: Input should be a valid dictionary" } ∧
    get_order_status_endpoint (fun _ => Except.ok "null") { order_id := 3 } =
      { success := false, data := [],
        error := some "1 validation error for OrderResponse: data: Input should be a valid dictionary" } :=
  ⟨(nonobject_result_failure_envelope (fun _ _ _ _ => Except.ok "null")
      (fun _ => Except.ok "null") { line_items := [], customer_email := "c@example.com" }
      { order_id := 3 } "null" Json.null).1 rfl rfl rfl,
   (nonobject_result_failure_envelope (fun _ _ _ _ => Except.ok "null")
      (fun _ => Except.ok "null") { line_items := [], customer_email := "c@example.com" }
      { order_id := 3 } "null" Json.null).2 rfl rfl rfl⟩

/-- A create-order body without `customer_email` fails structural
validation (whatever the other fields are). -/
theorem validate_missing_customer_email (fields : Dict)
    (h : getField fields "customer_email" = none) :
    ∃ m, CreateOrderRequest.validate (Json.obj fields) = Except.error m := by
  cases h0 : getField fields "line_items" with
  | none =>
    exact ⟨"Field required: line_items", by simp [CreateOrderRequest.validate, h0]⟩
  | some j =>
    cases j with
    | arr elems =>
      cases h1 : validateLineItems elems with
      | error m =>
        exact ⟨m, by simp [CreateOrderRequest.validate, h0, h1]⟩
      | ok items =>
        have h2 : requireStr fields "customer_email" =
            Except.error ("Field required: " ++ "customer_email") := by
          simp [requireStr, h]
        exact ⟨"Field required: " ++ "customer_email",
          by simp [CreateOrderRequest.validate, h0, h1, h2]⟩
    | null =>
      exact ⟨"Input should be a valid list: line_items",
        by simp [CreateOrderRequest.validate, h0]⟩
    | bool b =>
      exact ⟨"Input should be a valid list: line_items",
        by simp [CreateOrderRequest.validate, h0]⟩
    | num q =>
      exact ⟨"Input should be a valid list: line_items",
        by simp [CreateOrderRequest.validate, h0]⟩
    | str s =>
      exact ⟨"Input should be a valid list: line_items",
        by simp [CreateOrderRequest.validate, h0]⟩
    | obj o =>
      exact ⟨"Input should be a valid list: line_items",
        by simp [CreateOrderRequest.validate, h0]⟩

/-- C6: a create-order body missing `customer_email` or `line_items`, or
failing structural validation for any other reason (e.g. a wrong-typed
field), is answered with a 422 validation response — built from the
validation message, not a business envelope — and the outcome is the same
for every pair of delegated capabilities, since the handler body never
executes. -/
theorem create_order_structural_validation (fields : Dict)
    (create_order create_order2 : CreateOrderTool)
    (get_order_status get_order_status2 : GetOrderStatusTool)
    (h : getField fields "customer_email" = none ∨
         getField fields "line_items" = none ∨
         ∃ m0, CreateOrderRequest.validate (Json.obj fields) = Except.error m0) :
    ∃ m, CreateOrderRequest.validate (Json.obj fields) = Except.error m ∧
      app create_order get_order_status Method.post "/api/orders/create"
          (Json.obj fields) =
        { status := 422, body := Json.obj [("detail", Json.str m)] } ∧
      app create_order2 get_order_status2 Method.post "/api/orders/create"
          (Json.obj fields) =
        { status := 422, body := Json.obj [("detail", Json.str m)] } := by
  have hv : ∃ m0, CreateOrderRequest.validate (Json.obj fields) =
      Except.error m0 := by
    rcases h with h | h | h
    · exact validate_missing_customer_email fields h
    · exact ⟨"Field required: line_items", by simp [CreateOrderRequest.validate, h]⟩
    · exact h
  obtain ⟨m, hm⟩ := hv
  have happ1 : app create_order get_order_status Method.post
      "/api/orders/create" (Json.obj fields) =
      (match CreateOrderRequest.validate (Json.obj fields) with
       | Except.error msg =>
         { status := 422, body := Json.obj [("detail", Json.str msg)] }
       | Except.ok request =>
         { status := 200,
           body := (create_order_endpoint create_order request).model_dump }) := rfl
  have happ2 : app create_order2 get_order_status2 Method.post
      "/api/orders/create" (Json.obj fields) =
      (match CreateOrderRequest.validate (Json.obj fields) with
       | Except.error msg =>
         { status := 422, body := Json.obj [("detail", Json.str msg)] }
       | Except.ok request =>
         { status := 200,
           body := (create_order_endpoint create_order2 request).model_dump }) := rfl
  refine ⟨m, hm, ?_, ?_⟩
  · rw [happ1, hm]
  · rw [happ2, hm]

/-- C6 witness: a body carrying only `customer_email` (no `line_items`)
is rejected with a 422 validation response, identically under a healthy
and a failing pair of capabilities. -/
theorem create_order_structural_validation_witness :
    ∃ m, CreateOrderRequest.validate
        (Json.obj [("customer_email", Json.str "c@example.com")]) =
        Except.error m ∧
      app (fun _ _ _ _ => Except.ok "\x7b\x7d") (fun _ => Except.ok "\x7b\x7d")
          Method.post "/api/orders/create"
          (Json.obj [("customer_email", Json.str "c@example.com")]) =
        { status := 422, body := Json.obj [("detail", Json.str m)] } ∧
      app (fun _ _ _ _ => Except.error "down") (fun _ => Except.error "down")
          Method.post "/api/orders/create"
          (Json.obj [("customer_email", Json.str "c@example.com")]) =
        { status := 422, body := Json.obj [("detail", Json.str m)] } :=
  create_order_structural_validation
    [("customer_email", Json.str "c@example.com")]
    (fun _ _ _ _ => Except.ok "\x7b\x7d") (fun _ _ _ _ => Except.error "down")
    (fun _ => Except.ok "\x7b\x7d") (fun _ => Except.error "down")
    (Or.inr (Or.inl rfl))

/-- Inversion of successful line-item validation: the validated item's
`title` and `price` come from the `title` and `price` validators. -/
theorem lineItem_validate_ok (itemFields : Dict) (item : LineItem)
    (h : LineItem.validate (Json.obj itemFields) = Except.ok item) :
    optStr itemFields "title" "Product" = Except.ok item.title ∧
    optNum itemFields "price" 0 = Except.ok item.price := by
  simp only [LineItem.validate] at h
  cases h1 : requireInt itemFields "variant_id" with
  | error m => simp [h1] at h
  | ok vid =>
    cases h2 : requireInt itemFields "quantity" with
    | error m => simp [h1, h2] at h
    | ok qn =>
      cases h3 : optStr itemFields "title" "Product" with
      | error m => simp [h1, h2, h3] at h
      | ok t =>
        cases h4 : optNum itemFields "price" 0 with
        | error m => simp [h1, h2, h3, h4] at h
        | ok p =>
          simp only [h1, h2, h3, h4] at h
          injection h with h5
          subst h5
          exact ⟨rfl, rfl⟩

/-- Inversion of successful request validation: the validated request's
`financial_status` and `test` come from their validators. -/
theorem createOrderRequest_validate_ok (fields : Dict)
    (request : CreateOrderRequest)
    (h : CreateOrderRequest.validate (Json.obj fields) = Except.ok request) :
    optStr fields "financial_status" "paid" =
      Except.ok request.financial_status ∧
    optBool fields "test" true = Except.ok request.test := by
  simp only [CreateOrderRequest.validate] at h
  cases h0 : getField fields "line_items" with
  | none => simp [h0] at h
  | some j =>
    cases j with
    | arr elems =>
      cases h1 : validateLineItems elems with
      | error m => simp [h0, h1] at h
      | ok items =>
        cases h2 : requireStr fields "customer_email" with
        | error m => simp [h0, h1, h2] at h
        | ok em =>
          cases h3 : optStr fields "financial_status" "paid" with
          | error m => simp [h0, h1, h2, h3] at h
          | ok fs =>
            cases h4 : optBool fields "test" true with
            | error m => simp [h0, h1, h2, h3, h4] at h
            | ok t =>
              simp only [h0, h1, h2, h3, h4] at h
              injection h with h5
              subst h5
              exact ⟨rfl, rfl⟩
    | null => simp [h0] at h
    | bool b => simp [h0] at h
    | num q => simp [h0] at h
    | str s => simp [h0] at h
    | obj o => simp [h0] at h

/-- C8: when a create-order body omits the optional fields, validation
fills in the declared defaults: `title = "Product"` and `price = 0.0` per
line item, `financial_status = "paid"` and `test = True` (the is-test-order
flag) for the request. -/
theorem optional_fields_defaults (itemFields fields : Dict) (item : LineItem)
    (request : CreateOrderRequest)
    (hitem : LineItem.validate (Json.obj itemFields) = Except.ok item)
    (hreq : CreateOrderRequest.validate (Json.obj fields) = Except.ok request) :
    (getField itemFields "title" = none → item.title = "Product") ∧
    (getField itemFields "price" = none → item.price = 0) ∧
    (getField fields "financial_status" = none →
      request.financial_status = "paid") ∧
    (getField fields "test" = none → request.test = true) := by
  obtain ⟨ht, hp⟩ := lineItem_validate_ok itemFields item hitem
  obtain ⟨hf, hb⟩ := createOrderRequest_validate_ok fields request hreq
  refine ⟨?_, ?_, ?_, ?_⟩
  · intro hnone
    simp only [optStr, hnone] at ht
    injection ht with h
    exact h.symm
  · intro hnone
    simp only [optNum, hnone] at hp
    injection hp with h
    exact h.symm
  · intro hnone
    simp only [optStr, hnone] at hf
    injection hf with h
    exact h.symm
  · intro hnone
    simp only [optBool, hnone] at hb
    injection hb with h
    exact h.symm

/-- C8 witness: a line item carrying only `variant_id` and `quantity` and
a request carrying only `line_items` and `customer_email` validate to the
declared defaults. -/
theorem optional_fields_defaults_witness :
    ({ variant_id := 5, quantity := 2 } : LineItem).title = "Product" ∧
    ({ variant_id := 5, quantity := 2 } : LineItem).price = 0 ∧
    ({ line_items := [], customer_email := "c@example.com" } :
      CreateOrderRequest).financial_status = "paid" ∧
    ({ line_items := [], customer_email := "c@example.com" } :
      CreateOrderRequest).test = true := by
  obtain ⟨a, b, c, d⟩ := optional_fields_defaults
    [("variant_id", Json.num 5), ("quantity", Json.num 2)]
    [("line_items", Json.arr []), ("customer_email", Json.str "c@example.com")]
    { variant_id := 5, quantity := 2 }
    { line_items := [], customer_email := "c@example.com" }
    rfl rfl
  exact ⟨a rfl, b rfl, c rfl, d rfl⟩

/-- C9: a create-order body whose `line_items` is the empty list (with a
well-typed `customer_email`) passes structural validation, the handler
invokes the delegated `create_order` with the empty sequence of line
items (its result is a function of that call alone), and no positivity
constraint on `quantity` is enforced: any integer quantity validates. -/
theorem empty_line_items_accepted (email : String)
    (create_order : CreateOrderTool) (get_order_status : GetOrderStatusTool) :
    CreateOrderRequest.validate
        (Json.obj [("line_items", Json.arr []),
                   ("customer_email", Json.str email)]) =
      Except.ok { line_items := [], customer_email := email,
                  financial_status := "paid", test := true } ∧
    app create_order get_order_status Method.post "/api/orders/create"
        (Json.obj [("line_items", Json.arr []),
                   ("customer_email", Json.str email)]) =
      { status := 200,
        body := (create_order_finish
          (create_order [] email "paid" true)).model_dump } ∧
    (∀ v q : Int,
      LineItem.validate
          (Json.obj [("variant_id", Json.num (v : Rat)),
                     ("quantity", Json.num (q : Rat))]) =
        Except.ok { variant_id := v, quantity := q,
                    title := "Product", price := 0 }) := by
  refine ⟨rfl, ?_, ?_⟩
  · have happ : app create_order get_order_status Method.post
        "/api/orders/create"
        (Json.obj [("line_items", Json.arr []),
                   ("customer_email", Json.str email)]) =
        { status := 200,
          body := (create_order_endpoint create_order
            { line_items := [], customer_email := email }).model_dump } := rfl
    rw [happ, create_order_endpoint_eq_finish]
    rfl
  · intro v q
    simp [LineItem.validate, requireInt, optStr, optNum, getField]
